import Mathlib

/-
Shallow embedding of the core logic of app.py (ChurnGuard customer churn
prediction): the encoder registry (safe_encode), the feature vector builder
(create_feature_array), the heuristic risk explainer, the what-if offer
simulation inside analyze_single_customer, and the batch runner
(process_batch_file).  Python floats are modelled as exact rationals, the
loaded pickle artifacts as explicit parameters, and raising operations as
Option / Except values.
-/

/-- One categorical encoder from the encoders.pkl artifact: `transform`
returns the integer code of a known category; `none` models the exception it
raises on an unknown or malformed value. -/
abbrev EncoderFn := String → Option Int

/-- The loaded `encoders` mapping (a Python dict from field name to encoder),
modelled as an association list in insertion order. -/
abbrev Encoders := List (String × EncoderFn)

/-- Exact dict lookup `encoders[col_name]` guarded by `col_name in encoders`:
the first entry whose key equals the requested name. -/
def encGet : Encoders → String → Option EncoderFn
  | [], _ => none
  | kv :: rest, col => if kv.1 = col then some kv.2 else encGet rest col

/-- The fallback scan `for key in encoders.keys(): if key.lower() ==
col_name.lower()` from safe_encode: first key matching case-insensitively. -/
def encGetCI : Encoders → String → Option EncoderFn
  | [], _ => none
  | kv :: rest, col => if kv.1.toLower = col.toLower then some kv.2 else encGetCI rest col

/-- safe_encode from app.py: exact field-name match preferred, else the
case-insensitive scan, else the default code 0.  A raising `transform`
(modelled by `none`) is caught by the surrounding try/except and also yields
0, so the function is total. -/
def safe_encode (encs : Encoders) (col_name value : String) : Int :=
  match encGet encs col_name with
  | some enc => (enc value).getD 0
  | none =>
    match encGetCI encs col_name with
    | some enc => (enc value).getD 0
    | none => 0

/-- create_feature_array from app.py: the 19-column row the model expects.
Numeric fields are rationals (exact reals), so the source `float(...)`
coercions are the identity on them; the integer codes are cast into ℚ, as
numpy casts them into the float array.  The last three string parameters are
the source's keyword defaults contract="Month-to-month", tech_support="No",
online_security="No", passed explicitly at every call site. -/
def create_feature_array (encs : Encoders) (gender senior partner dependents : String)
    (tenure : ℚ) (phone internet : String) (monthly total : ℚ)
    (contract tech_support online_security : String) : List ℚ :=
  let senior_val : ℚ := if senior = "Yes" then 1 else 0
  [ (safe_encode encs "gender" gender : ℚ),
    senior_val,
    (safe_encode encs "Partner" partner : ℚ),
    (safe_encode encs "Dependents" dependents : ℚ),
    tenure,
    (safe_encode encs "PhoneService" phone : ℚ),
    (safe_encode encs "MultipleLines" "No" : ℚ),
    (safe_encode encs "InternetService" internet : ℚ),
    (safe_encode encs "OnlineSecurity" online_security : ℚ),
    (safe_encode encs "OnlineBackup" "No" : ℚ),
    (safe_encode encs "DeviceProtection" "No" : ℚ),
    (safe_encode encs "TechSupport" tech_support : ℚ),
    (safe_encode encs "StreamingTV" "No" : ℚ),
    (safe_encode encs "StreamingMovies" "No" : ℚ),
    (safe_encode encs "Contract" contract : ℚ),
    (safe_encode encs "PaperlessBilling" "Yes" : ℚ),
    (safe_encode encs "PaymentMethod" "Electronic check" : ℚ),
    monthly,
    total ]

/-- The 19-slot vector written from the spec's own wording (section 4.2 order
list: gender, senior, partner, dependents, tenure, phone, multiple-lines
default, internet, online-security, online-backup default, device-protection
default, tech-support, streaming-tv default, streaming-movies default,
contract, paperless-billing default "Yes", payment-method default
"Electronic check", monthly-charges, total-charges), for refinement
comparison with create_feature_array. -/
def spec_vector_4_2 (encs : Encoders) (gender senior partner dependents : String)
    (tenure : ℚ) (phone internet : String) (monthly total : ℚ)
    (contract tech_support online_security : String) : List ℚ :=
  [ (safe_encode encs "gender" gender : ℚ),
    (if senior = "Yes" then (1 : ℚ) else 0),
    (safe_encode encs "Partner" partner : ℚ),
    (safe_encode encs "Dependents" dependents : ℚ),
    tenure,
    (safe_encode encs "PhoneService" phone : ℚ),
    (safe_encode encs "MultipleLines" "No" : ℚ),
    (safe_encode encs "InternetService" internet : ℚ),
    (safe_encode encs "OnlineSecurity" online_security : ℚ),
    (safe_encode encs "OnlineBackup" "No" : ℚ),
    (safe_encode encs "DeviceProtection" "No" : ℚ),
    (safe_encode encs "TechSupport" tech_support : ℚ),
    (safe_encode encs "StreamingTV" "No" : ℚ),
    (safe_encode encs "StreamingMovies" "No" : ℚ),
    (safe_encode encs "Contract" contract : ℚ),
    (safe_encode encs "PaperlessBilling" "Yes" : ℚ),
    (safe_encode encs "PaymentMethod" "Electronic check" : ℚ),
    monthly,
    total ]

/-- The loaded classifier behind its narrow interface: `predict` models
`model.predict(v)[0]` and `churnProb` models `model.predict_proba(v)[0][1]`
(the churn probability). -/
structure Model where
  predict : List ℚ → Int
  churnProb : List ℚ → ℚ

/-- The heuristic reason list of analyze_single_customer, built by three
sequential conditional appends. -/
def churn_reasons (tenure monthly : ℚ) (internet : String) : List String :=
  let reasons : List String := []
  let reasons := if monthly > 80 then reasons ++ ["High Monthly Charges"] else reasons
  let reasons := if tenure < 12 then reasons ++ ["New Customer (Low Tenure)"] else reasons
  let reasons := if internet = "Fiber optic" then reasons ++ ["Fiber Optic Issues (Common)"] else reasons
  reasons

/-- The explanation text: the bullet-joined reasons, or the default string
when no rule fired (source: a join of reasons if reasons else the default). -/
def explanation_of (tenure monthly : ℚ) (internet : String) : String :=
  let reasons := churn_reasons tenure monthly internet
  if reasons.isEmpty then "Standard Usage Pattern" else String.intercalate " • " reasons

/-- Round to the nearest integer with ties to even, the rounding used by
Python round() and string formatting on exact values. -/
def roundHalfEven (x : ℚ) : Int :=
  let fl := x.floor
  let fr := x - (fl : ℚ)
  if fr < 1/2 then fl
  else if 1/2 < fr then fl + 1
  else if fl % 2 = 0 then fl else fl + 1

/-- Python round(x, 4). -/
def round4 (x : ℚ) : ℚ := (roundHalfEven (x * 10000) : ℚ) / 10000

/-- The percentage formatting used by the result card and the offer message
(one decimal digit, a percent sign). -/
def percent1 (x : ℚ) : String :=
  let n := roundHalfEven (x * 1000)
  toString (n / 10) ++ "." ++ toString (n % 10) ++ "%"

/-- The default optimization message of analyze_single_customer. -/
def no_intervention_msg : String := "✅ No intervention needed."

/-- The default email draft of analyze_single_customer. -/
def safe_email : String := "Customer is safe. No email required."

/-- The structural-risk message of the what-if branch. -/
def structural_msg : String := "⚠️ Risk is structural. Discounts may not help."

/-- generate_email from app.py.  The `name` parameter is accepted and unused,
exactly as in the source template. -/
def generate_email (name risk_drivers offer_details : String) : String :=
  "Subject: Exclusive Offer for our Valued Customer\n\nDear Valued Customer,\n\nWe noticed you\x27ve been with us for a while, and we want to ensure you\x27re getting the best experience possible.\n"
    ++ (if risk_drivers ≠ "" then "We understand that " ++ risk_drivers ++ " might be a concern." else "")
    ++ "\n\nTo show our appreciation, we\x27d like to offer you:\n👉 " ++ offer_details
    ++ "\n\nPlease reply to this email to activate this offer immediately.\n\nWarm regards,\nCustomer Success Team"

/-- The offer-accepted recommendation message, interpolating the base and new
churn probabilities as the source f-string does. -/
def offer_msg (prob new_prob : ℚ) : String :=
  "\n            <div style=\"background: #ecfdf5; padding: 15px; border-radius: 8px; border-left: 5px solid #10b981;\">\n                <b>🚀 AI Recommendation:</b><br>\n                If we offer a <b>15% Discount</b> & free <b>Tech Support</b>:<br>\n                Churn Probability drops from <b>"
    ++ percent1 prob ++ "</b> ➝ <b>" ++ percent1 new_prob ++ "</b>.\n            </div>\n            "

/-- The high-risk result card of analyze_single_customer. -/
def churn_card (prob : ℚ) (expl : String) : String :=
  "\n        <div class=\"result-card churn-card\">\n            <div class=\"icon-box\">⚠️</div>\n            <h2>High Churn Risk</h2>\n            <div class=\"score\" style=\"color: #991b1b;\">"
    ++ percent1 prob ++ "</div>\n            <p>Risk Drivers: <b>" ++ expl ++ "</b></p>\n        </div>\n        "

/-- The safe-customer result card of analyze_single_customer. -/
def safe_card (prob : ℚ) : String :=
  "\n        <div class=\"result-card safe-card\">\n            <div class=\"icon-box\">🛡️</div>\n            <h2>Safe Customer</h2>\n            <div class=\"score\" style=\"color: #065f46;\">"
    ++ percent1 prob ++ "</div>\n            <p>Status: Healthy</p>\n        </div>\n        "

/-- The what-if block of analyze_single_customer (the body guarded by
`if prob > 0.40`), returning the optimization message and email draft it
produces, or `none` when the threshold is not exceeded and no simulation
runs.  `expl` is the explanation text computed by the caller, and `prob` the
base churn probability. -/
def simulate_offer (model : Model) (encs : Encoders) (gender senior partner dependents : String)
    (tenure : ℚ) (phone internet : String) (monthly total prob : ℚ) (expl : String) :
    Option (String × String) :=
  if prob > (0.40 : ℚ) then
    let new_monthly := monthly * (0.85 : ℚ)
    let new_features := create_feature_array encs gender senior partner dependents tenure phone
      internet new_monthly total "One year" "Yes" "No"
    let new_prob := model.churnProb new_features
    let drop := prob - new_prob
    if drop > 0 then
      some (offer_msg prob new_prob,
        generate_email "Customer" expl "A 15% Discount on your monthly bill + Free Tech Support upgrade")
    else
      some (structural_msg, generate_email "Customer" "recent service issues" "A Priority Support Plan")
  else none

/-- analyze_single_customer from app.py.  The model argument is `none` when
the pickle load failed at startup (the module-level `model = None`); the
result is the (card_html, optimization_msg, email_draft) triple of strings. -/
def analyze_single_customer (m : Option Model) (encs : Encoders)
    (gender senior partner dependents : String) (tenure : ℚ) (phone internet : String)
    (monthly total : ℚ) : String × String × String :=
  match m with
  | none => ("Error: Model not loaded.", "", "")
  | some model =>
    let features := create_feature_array encs gender senior partner dependents tenure phone
      internet monthly total "Month-to-month" "No" "No"
    let pred := model.predict features
    let prob := model.churnProb features
    let expl := explanation_of tenure monthly internet
    let sim := simulate_offer model encs gender senior partner dependents tenure phone internet
      monthly total prob expl
    let optimization_msg := (sim.map Prod.fst).getD no_intervention_msg
    let email_draft := (sim.map Prod.snd).getD safe_email
    let card_html := if pred = 1 then churn_card prob expl else safe_card prob
    (card_html, optimization_msg, email_draft)

/-- A cell of the uploaded CSV as pandas materializes it: a numeric value or
a string. -/
inductive Cell where
  | num (q : ℚ)
  | text (s : String)
  deriving DecidableEq

/-- A CSV row: an association list from column name to cell. -/
abbrev Row := List (String × Cell)

/-- `row.get(col, default)`: the cell under the column name, or the default
when the column is missing. -/
def rowGet : Row → String → Cell → Cell
  | [], _, d => d
  | kv :: rest, col, d => if kv.1 = col then kv.2 else rowGet rest col d

/-- Python str() applied to a cell. -/
def strCell : Cell → String
  | Cell.num q => toString q
  | Cell.text s => s

/-- The comparison `row.get('SeniorCitizen', 0) == 1`: true exactly for the
numeric cell 1 (a string cell never equals the integer 1 in Python). -/
def cellEqOne : Cell → Bool
  | Cell.num q => decide (q = 1)
  | Cell.text _ => false

/-- The numeric value of a nonempty run of decimal digit characters; `none`
on the empty run or any non-digit. -/
def natOfDigitsAux : List Char → Nat → Option Nat
  | [], acc => some acc
  | ch :: rest, acc =>
    if ch.isDigit then natOfDigitsAux rest (acc * 10 + (ch.toNat - 48)) else none

/-- See natOfDigitsAux; the empty digit run is rejected. -/
def natOfDigits : List Char → Option Nat
  | [] => none
  | cs => natOfDigitsAux cs 0

/-- Split a character list on the dot character. -/
def splitDot : List Char → List (List Char)
  | [] => [[]]
  | c :: rest =>
    if c = '.' then [] :: splitDot rest
    else
      match splitDot rest with
      | g :: gs => (c :: g) :: gs
      | [] => [[c]]

/-- Python float() on a CSV string: a dot-separated decimal numeral parses to
its value; anything else (in particular a non-numeric string) raises,
modelled by `none`. -/
def floatOfString (s : String) : Option ℚ :=
  match splitDot s.data with
  | [a] => (natOfDigits a).map (fun n => (n : ℚ))
  | [a, b] =>
    match natOfDigits a, natOfDigits b with
    | some n, some m => some ((n : ℚ) + (m : ℚ) / (10 ^ b.length))
    | _, _ => none
  | _ => none

/-- Python float() on a cell: the identity on numeric cells, a parse on text
cells; `Except.error` models the raised ValueError. -/
def floatCell : Cell → Except String ℚ
  | Cell.num q => Except.ok q
  | Cell.text s =>
    match floatOfString s with
    | some q => Except.ok q
    | none => Except.error ("could not convert string to float: " ++ s)

/-- The nine arguments process_batch_file extracts from a row before calling
create_feature_array; tenure, monthly and total are still raw cells because
their float() coercion can fail. -/
structure RowInputs where
  gender : String
  senior : String
  partner : String
  dependents : String
  tenure : Cell
  phone : String
  internet : String
  monthly : Cell
  total : Cell

/-- The per-row argument extraction of process_batch_file, with the source's
fixed defaults for missing columns. -/
def batch_row_inputs (row : Row) : RowInputs :=
  ⟨ strCell (rowGet row "gender" (Cell.text "Male")),
    (if cellEqOne (rowGet row "SeniorCitizen" (Cell.num 0)) then "Yes" else "No"),
    strCell (rowGet row "Partner" (Cell.text "No")),
    strCell (rowGet row "Dependents" (Cell.text "No")),
    rowGet row "tenure" (Cell.num 0),
    strCell (rowGet row "PhoneService" (Cell.text "No")),
    strCell (rowGet row "InternetService" (Cell.text "No")),
    rowGet row "MonthlyCharges" (Cell.num 0),
    rowGet row "TotalCharges" (Cell.num 0) ⟩

/-- The body of the batch loop for one row: coerce tenure, monthly and total
(in the order the source evaluates them, first failure aborting the row),
build the feature array, and produce the label and the probability rounded to
4 digits. -/
def process_row (model : Model) (encs : Encoders) (row : Row) : Except String (String × ℚ) :=
  match floatCell (batch_row_inputs row).tenure with
  | Except.error e => Except.error e
  | Except.ok tv =>
    match floatCell (batch_row_inputs row).monthly with
    | Except.error e => Except.error e
    | Except.ok mv =>
      match floatCell (batch_row_inputs row).total with
      | Except.error e => Except.error e
      | Except.ok tot =>
        let f := create_feature_array encs (batch_row_inputs row).gender
          (batch_row_inputs row).senior (batch_row_inputs row).partner
          (batch_row_inputs row).dependents tv (batch_row_inputs row).phone
          (batch_row_inputs row).internet mv tot "Month-to-month" "No" "No"
        Except.ok (if model.predict f = 1 then "Churn" else "No Churn",
          round4 (model.churnProb f))

/-- The sequential batch loop: the first row whose processing raises aborts
the whole iteration with that error (the source's for-loop inside try). -/
def run_rows (model : Model) (encs : Encoders) : List Row → Except String (List (String × ℚ))
  | [] => Except.ok []
  | r :: rs =>
    match process_row model encs r with
    | Except.error e => Except.error e
    | Except.ok x =>
      match run_rows model encs rs with
      | Except.error e => Except.error e
      | Except.ok xs => Except.ok (x :: xs)

/-- Pandas column assignment `df[col] = ...` restricted to one row: replace
the cell in place when the column exists, append it otherwise. -/
def setColumn : Row → String → Cell → Row
  | [], col, v => [(col, v)]
  | kv :: rest, col, v => if kv.1 = col then (col, v) :: rest else kv :: setColumn rest col v

/-- One output row: the input row with the Prediction and Churn_Probability
columns assigned. -/
def annotate_row (row : Row) (lab : String) (p : ℚ) : Row :=
  setColumn (setColumn row "Prediction" (Cell.text lab)) "Churn_Probability" (Cell.num p)

/-- The two column assignments of process_batch_file applied rowwise. -/
def annotate : List Row → List (String × ℚ) → List Row
  | r :: rs, x :: xs => annotate_row r x.1 x.2 :: annotate rs xs
  | _, _ => []

/-- process_batch_file from app.py on an already-parsed table: on success the
annotated table (written to processed_churn_results.csv in the source), on
any exception the diagnostic error artifact (the error_log.txt content). -/
def process_batch_file (model : Model) (encs : Encoders) (df : List Row) : Except String (List Row) :=
  match run_rows model encs df with
  | Except.error e => Except.error ("Error processing file: " ++ e)
  | Except.ok res => Except.ok (annotate df res)

/-- A concrete stand-in classifier used to instantiate witnesses: predicts
class 0 with churn probability 1/4 on every vector. -/
def dummy_model : Model := ⟨fun _ => 0, fun _ => 1/4⟩

/-- An encoder lookup on a table containing no entry with the exact name
fails. -/
lemma encGet_eq_none_of (encs : Encoders) (col : String)
    (h : ∀ kv ∈ encs, kv.1 ≠ col) : encGet encs col = none := by
  induction encs with
  | nil => rfl
  | cons kv rest ih =>
    have h1 : kv.1 ≠ col := h kv (List.mem_cons_self kv rest)
    simp only [encGet, if_neg h1]
    exact ih fun x hx => h x (List.mem_cons_of_mem _ hx)

/-- A case-insensitive encoder lookup on a table containing no entry whose
lowered name matches fails. -/
lemma encGetCI_eq_none_of (encs : Encoders) (col : String)
    (h : ∀ kv ∈ encs, kv.1.toLower ≠ col.toLower) : encGetCI encs col = none := by
  induction encs with
  | nil => rfl
  | cons kv rest ih =>
    have h1 : kv.1.toLower ≠ col.toLower := h kv (List.mem_cons_self kv rest)
    simp only [encGetCI, if_neg h1]
    exact ih fun x hx => h x (List.mem_cons_of_mem _ hx)

/-- A row lookup on a row without the requested column yields the default. -/
lemma rowGet_default (row : Row) (col : String) (d : Cell)
    (h : ∀ kv ∈ row, kv.1 ≠ col) : rowGet row col d = d := by
  induction row with
  | nil => rfl
  | cons kv rest ih =>
    have h1 : kv.1 ≠ col := h kv (List.mem_cons_self kv rest)
    simp only [rowGet, if_neg h1]
    exact ih fun x hx => h x (List.mem_cons_of_mem _ hx)

/-- C1: for every encoder table, every record and any overrides,
create_feature_array returns exactly 19 numeric entries, in the fixed order
stated in section 4.2 of the spec (refined by spec_vector_4_2), with tenure,
monthly and total carried through as (exact) floating-point values in slots
4, 17 and 18. -/
theorem C1_feature_vector_shape (encs : Encoders) (gender senior partner dependents : String)
    (tenure : ℚ) (phone internet : String) (monthly total : ℚ)
    (contract tech_support online_security : String) :
    (create_feature_array encs gender senior partner dependents tenure phone internet monthly
      total contract tech_support online_security).length = 19 ∧
    create_feature_array encs gender senior partner dependents tenure phone internet monthly
      total contract tech_support online_security =
      spec_vector_4_2 encs gender senior partner dependents tenure phone internet monthly
        total contract tech_support online_security :=
  ⟨rfl, rfl⟩

/-- C2 as frozen is false on the code: on the example record the fiber rule
appends the string "Fiber Optic Issues (Common)", not "Fiber Optic Issues". -/
theorem C2_counterexample :
    churn_reasons 3 95 "Fiber optic" ≠
      ["High Monthly Charges", "New Customer (Low Tenure)", "Fiber Optic Issues"] := by
  decide

/-- C2 amended: the three threshold rules are evaluated independently in the
fixed order (monthly, tenure, internet) with the fiber rule appending
"Fiber Optic Issues (Common)"; when no rule matches the explanation is the
single default string; the example record yields exactly the three driver
strings in order. -/
theorem C2_amended_drivers (tenure monthly : ℚ) (internet : String) :
    churn_reasons tenure monthly internet =
      (if monthly > 80 then ["High Monthly Charges"] else []) ++
      (if tenure < 12 then ["New Customer (Low Tenure)"] else []) ++
      (if internet = "Fiber optic" then ["Fiber Optic Issues (Common)"] else []) ∧
    (churn_reasons tenure monthly internet = [] →
      explanation_of tenure monthly internet = "Standard Usage Pattern") ∧
    churn_reasons 3 95 "Fiber optic" =
      ["High Monthly Charges", "New Customer (Low Tenure)", "Fiber Optic Issues (Common)"] := by
  refine ⟨?_, ?_, by decide⟩
  · unfold churn_reasons
    split_ifs <;> simp
  · intro h
    simp [explanation_of, h]

/-- Witness for C2: a record matching no rule gets the default explanation. -/
theorem C2_amended_witness :
    churn_reasons 20 50 "DSL" = [] ∧ explanation_of 20 50 "DSL" = "Standard Usage Pattern" :=
  ⟨by decide, (C2_amended_drivers 20 50 "DSL").2.1 (by decide)⟩

/-- C3: safe_encode is total and never fails: an exact field-name match is
preferred and used, a failing transform under it still yields 0, otherwise
the case-insensitive match is used, and when no key matches either way the
result is the default code 0 for every value. -/
theorem C3_safe_encode_fallback (encs : Encoders) (col_name value : String) :
    (∀ enc, encGet encs col_name = some enc →
      safe_encode encs col_name value = (enc value).getD 0) ∧
    (∀ enc, encGet encs col_name = some enc → enc value = none →
      safe_encode encs col_name value = 0) ∧
    (encGet encs col_name = none → ∀ enc, encGetCI encs col_name = some enc →
      safe_encode encs col_name value = (enc value).getD 0) ∧
    ((∀ kv ∈ encs, kv.1 ≠ col_name) → (∀ kv ∈ encs, kv.1.toLower ≠ col_name.toLower) →
      safe_encode encs col_name value = 0) := by
  refine ⟨?_, ?_, ?_, ?_⟩
  · intro enc h
    unfold safe_encode
    rw [h]
  · intro enc h hv
    unfold safe_encode
    rw [h]
    show (enc value).getD 0 = 0
    rw [hv]
    rfl
  · intro h enc h2
    unfold safe_encode
    rw [h, h2]
  · intro h1 h2
    unfold safe_encode
    rw [encGet_eq_none_of encs col_name h1, encGetCI_eq_none_of encs col_name h2]

/-- Witness for C3: an unknown field with an unknown value on an empty
registry encodes to 0. -/
theorem C3_safe_encode_witness : safe_encode [] "UnknownField" "UnknownValue" = 0 :=
  (C3_safe_encode_fallback [] "UnknownField" "UnknownValue").2.2.2
    (by intro kv hkv; cases hkv) (by intro kv hkv; cases hkv)

/-- C10: when the model artifact failed to load, analyze_single_customer
returns exactly the error triple, for every input and independently of the
encoder table, without consulting classifier, builder, explainer or
simulator. -/
theorem C10_model_not_loaded (encs : Encoders) (gender senior partner dependents : String)
    (tenure : ℚ) (phone internet : String) (monthly total : ℚ) :
    analyze_single_customer none encs gender senior partner dependents tenure phone internet
      monthly total = ("Error: Model not loaded.", "", "") := rfl

/-- C4: the what-if simulation runs exactly when the base churn probability
strictly exceeds 0.40: simulate_offer produces a result iff prob > 0.40, and
when the base probability computed by the classifier is at most 0.40 the
analysis keeps the default no-intervention message and the default email. -/
theorem C4_simulation_threshold (model : Model) (encs : Encoders)
    (gender senior partner dependents : String) (tenure : ℚ) (phone internet : String)
    (monthly total prob : ℚ) (expl : String) :
    ((simulate_offer model encs gender senior partner dependents tenure phone internet monthly
      total prob expl).isSome = true ↔ (0.40 : ℚ) < prob) ∧
    (model.churnProb (create_feature_array encs gender senior partner dependents tenure phone
        internet monthly total "Month-to-month" "No" "No") ≤ (0.40 : ℚ) →
      (analyze_single_customer (some model) encs gender senior partner dependents tenure phone
        internet monthly total).2 = (no_intervention_msg, safe_email)) := by
  constructor
  · unfold simulate_offer
    split_ifs with h <;> simp [h, apply_ite Option.isSome]
  · intro h
    have hnone : simulate_offer model encs gender senior partner dependents tenure phone internet
        monthly total (model.churnProb (create_feature_array encs gender senior partner dependents
          tenure phone internet monthly total "Month-to-month" "No" "No"))
        (explanation_of tenure monthly internet) = none := by
      unfold simulate_offer
      exact if_neg (not_lt.mpr h)
    show (((simulate_offer model encs gender senior partner dependents tenure phone internet
        monthly total (model.churnProb (create_feature_array encs gender senior partner dependents
          tenure phone internet monthly total "Month-to-month" "No" "No"))
        (explanation_of tenure monthly internet)).map Prod.fst).getD no_intervention_msg,
      ((simulate_offer model encs gender senior partner dependents tenure phone internet
        monthly total (model.churnProb (create_feature_array encs gender senior partner dependents
          tenure phone internet monthly total "Month-to-month" "No" "No"))
        (explanation_of tenure monthly internet)).map Prod.snd).getD safe_email) =
      (no_intervention_msg, safe_email)
    rw [hnone]
    rfl

/-- Witness for C4: with a classifier reporting probability 1/4 the iff holds
at probability 1/4 and the analysis output keeps both defaults. -/
theorem C4_simulation_witness :
    ((simulate_offer dummy_model [] "Male" "No" "No" "No" 12 "Yes" "DSL" 50 600 (1/4)
      "x").isSome = true ↔ (0.40 : ℚ) < (1/4 : ℚ)) ∧
    (analyze_single_customer (some dummy_model) [] "Male" "No" "No" "No" 12 "Yes" "DSL" 50
      600).2 = (no_intervention_msg, safe_email) := by
  have h := C4_simulation_threshold dummy_model [] "Male" "No" "No" "No" 12 "Yes" "DSL" 50 600
    (1/4) "x"
  exact ⟨h.1, h.2 (by norm_num [dummy_model])⟩

/-- C5: whenever the simulation triggers (prob > 0.40), it reruns the
classifier on exactly the vector with monthly-charges scaled by 0.85,
contract "One year" and tech-support "Yes" (everything else from the original
record), and produces the offer-accepted message with the probability drop
iff the new probability is strictly below the base probability, else the
structural-risk message; and the fixed offer sends monthly 95 to 80.75. -/
theorem C5_offer_simulation (model : Model) (encs : Encoders)
    (gender senior partner dependents : String) (tenure : ℚ) (phone internet : String)
    (monthly total prob : ℚ) (expl : String) (h : (0.40 : ℚ) < prob) :
    simulate_offer model encs gender senior partner dependents tenure phone internet monthly
      total prob expl =
      some (if model.churnProb (create_feature_array encs gender senior partner dependents tenure
              phone internet (monthly * (0.85 : ℚ)) total "One year" "Yes" "No") < prob
            then (offer_msg prob (model.churnProb (create_feature_array encs gender senior partner
                    dependents tenure phone internet (monthly * (0.85 : ℚ)) total "One year" "Yes"
                    "No")),
                  generate_email "Customer" expl
                    "A 15% Discount on your monthly bill + Free Tech Support upgrade")
            else (structural_msg,
                  generate_email "Customer" "recent service issues" "A Priority Support Plan")) ∧
    (95 : ℚ) * (0.85 : ℚ) = 80.75 := by
  refine ⟨?_, by norm_num⟩
  unfold simulate_offer
  rw [if_pos h]
  simp only [gt_iff_lt, sub_pos]
  split_ifs <;> rfl

/-- Witness for C5: with the constant-1/4 classifier and base probability
0.55 the offer is recommended and the slot 17 of the rerun vector is 80.75. -/
theorem C5_offer_witness :
    simulate_offer dummy_model [] "Female" "No" "Yes" "No" 3 "Yes" "Fiber optic" 95 285
      (0.55 : ℚ) "x" =
      some (offer_msg (0.55 : ℚ) (1/4),
        generate_email "Customer" "x"
          "A 15% Discount on your monthly bill + Free Tech Support upgrade") ∧
    (95 : ℚ) * (0.85 : ℚ) = 80.75 := by
  have h := C5_offer_simulation dummy_model [] "Female" "No" "Yes" "No" 3 "Yes" "Fiber optic"
    95 285 (0.55 : ℚ) "x" (by norm_num)
  refine ⟨?_, h.2⟩
  rw [h.1]
  norm_num [dummy_model]

/-- C9: the simulation never disturbs the base analysis: the result card of
analyze_single_customer is exactly the one computed from the base feature
vector (whether or not a simulation ran), and the overridden vector built for
the simulation agrees with the base vector at every slot except the three
overridden ones (tech-support 11, contract 14, monthly-charges 17). -/
theorem C9_no_mutation (model : Model) (encs : Encoders)
    (gender senior partner dependents : String) (tenure : ℚ) (phone internet : String)
    (monthly total : ℚ) :
    ((analyze_single_customer (some model) encs gender senior partner dependents tenure phone
        internet monthly total).1 =
      (if model.predict (create_feature_array encs gender senior partner dependents tenure phone
          internet monthly total "Month-to-month" "No" "No") = 1
       then churn_card (model.churnProb (create_feature_array encs gender senior partner
              dependents tenure phone internet monthly total "Month-to-month" "No" "No"))
              (explanation_of tenure monthly internet)
       else safe_card (model.churnProb (create_feature_array encs gender senior partner dependents
              tenure phone internet monthly total "Month-to-month" "No" "No")))) ∧
    (∀ j : ℕ, j < 19 → j ≠ 11 → j ≠ 14 → j ≠ 17 →
      (create_feature_array encs gender senior partner dependents tenure phone internet
        (monthly * (0.85 : ℚ)) total "One year" "Yes" "No")[j]? =
      (create_feature_array encs gender senior partner dependents tenure phone internet monthly
        total "Month-to-month" "No" "No")[j]?) := by
  constructor
  · rfl
  · intro j h1 h2 h3 h4
    interval_cases j
    all_goals first
      | rfl
      | exact absurd rfl h2
      | exact absurd rfl h3
      | exact absurd rfl h4

/-- Witness for C9: at slot 0 the overridden and base vectors agree on a
concrete record. -/
theorem C9_no_mutation_witness :
    (create_feature_array [] "Female" "No" "Yes" "No" 3 "Yes" "Fiber optic"
      ((95 : ℚ) * (0.85 : ℚ)) 285 "One year" "Yes" "No")[0]? =
    (create_feature_array [] "Female" "No" "Yes" "No" 3 "Yes" "Fiber optic" 95 285
      "Month-to-month" "No" "No")[0]? :=
  (C9_no_mutation dummy_model [] "Female" "No" "Yes" "No" 3 "Yes" "Fiber optic" 95 285).2 0
    (by decide) (by decide) (by decide) (by decide)

/-- A row whose processing raises makes the whole sequential loop fail. -/
lemma run_rows_error_of_mem (model : Model) (encs : Encoders) (df : List Row)
    (h : ∃ r ∈ df, ∃ e, process_row model encs r = Except.error e) :
    ∃ e, run_rows model encs df = Except.error e := by
  induction df with
  | nil =>
    obtain ⟨r, hr, _⟩ := h
    cases hr
  | cons a rs ih =>
    obtain ⟨r, hr, e, he⟩ := h
    cases hp : process_row model encs a with
    | error e2 =>
      refine ⟨e2, ?_⟩
      unfold run_rows
      rw [hp]
    | ok x =>
      have hrs : r ∈ rs := by
        rcases List.mem_cons.mp hr with h1 | h1
        · subst h1
          rw [hp] at he
          cases he
        · exact h1
      obtain ⟨e3, he3⟩ := ih ⟨r, hrs, e, he⟩
      refine ⟨e3, ?_⟩
      unfold run_rows
      rw [hp, he3]

/-- A fully successful loop processes the rows pointwise. -/
lemma run_rows_ok_forall (model : Model) (encs : Encoders) (df : List Row)
    (res : List (String × ℚ)) (h : run_rows model encs df = Except.ok res) :
    List.Forall₂ (fun r x => process_row model encs r = Except.ok x) df res := by
  induction df generalizing res with
  | nil =>
    unfold run_rows at h
    cases h
    exact List.Forall₂.nil
  | cons a rs ih =>
    unfold run_rows at h
    cases hp : process_row model encs a with
    | error e =>
      rw [hp] at h
      cases h
    | ok x =>
      rw [hp] at h
      cases hr : run_rows model encs rs with
      | error e =>
        rw [hr] at h
        cases h
      | ok xs =>
        rw [hr] at h
        cases h
        exact List.Forall₂.cons hp (ih xs hr)

/-- A successful row yields a churn label from the two fixed strings and a
probability that is the 4-digit rounding of the classifier output on the
row's feature vector. -/
lemma process_row_ok_shape (model : Model) (encs : Encoders) (r : Row) (lab : String) (p : ℚ)
    (h : process_row model encs r = Except.ok (lab, p)) :
    (lab = "Churn" ∨ lab = "No Churn") ∧ ∃ q, p = round4 q := by
  unfold process_row at h
  cases h1 : floatCell (batch_row_inputs r).tenure with
  | error e =>
    rw [h1] at h
    cases h
  | ok tv =>
    rw [h1] at h
    cases h2 : floatCell (batch_row_inputs r).monthly with
    | error e =>
      rw [h2] at h
      cases h
    | ok mv =>
      rw [h2] at h
      cases h3 : floatCell (batch_row_inputs r).total with
      | error e =>
        rw [h3] at h
        cases h
      | ok tot =>
        rw [h3] at h
        cases h
        constructor
        · by_cases hp : model.predict (create_feature_array encs (batch_row_inputs r).gender
            (batch_row_inputs r).senior (batch_row_inputs r).partner (batch_row_inputs r).dependents
            tv (batch_row_inputs r).phone (batch_row_inputs r).internet mv tot "Month-to-month"
            "No" "No") = 1
          · left
            simp [hp]
          · right
            simp [hp]
        · exact ⟨_, rfl⟩

/-- Looking up an untouched column after a column assignment is unchanged. -/
lemma rowGet_setColumn_ne (row : Row) (col c : String) (v d : Cell) (h : col ≠ c) :
    rowGet (setColumn row c v) col d = rowGet row col d := by
  induction row with
  | nil =>
    show (if c = col then v else rowGet [] col d) = rowGet [] col d
    rw [if_neg (fun hc => h hc.symm)]
  | cons kv rest ih =>
    show rowGet (if kv.1 = c then (c, v) :: rest else kv :: setColumn rest c v) col d = _
    by_cases h1 : kv.1 = c
    · rw [if_pos h1]
      show (if c = col then v else rowGet rest col d) =
        if kv.1 = col then kv.2 else rowGet rest col d
      rw [if_neg (fun hc => h hc.symm), if_neg (fun hc => h (hc.symm.trans h1))]
    · rw [if_neg h1]
      show (if kv.1 = col then kv.2 else rowGet (setColumn rest c v) col d) =
        if kv.1 = col then kv.2 else rowGet rest col d
      by_cases h2 : kv.1 = col
      · rw [if_pos h2, if_pos h2]
      · rw [if_neg h2, if_neg h2]
        exact ih

/-- Looking up the assigned column returns the assigned cell. -/
lemma rowGet_setColumn_self (row : Row) (c : String) (v d : Cell) :
    rowGet (setColumn row c v) c d = v := by
  induction row with
  | nil =>
    show (if c = c then v else rowGet [] c d) = v
    rw [if_pos rfl]
  | cons kv rest ih =>
    show rowGet (if kv.1 = c then (c, v) :: rest else kv :: setColumn rest c v) c d = v
    by_cases h1 : kv.1 = c
    · rw [if_pos h1]
      show (if c = c then v else rowGet rest c d) = v
      rw [if_pos rfl]
    · rw [if_neg h1]
      show (if kv.1 = c then kv.2 else rowGet (setColumn rest c v) c d) = v
      rw [if_neg h1]
      exact ih

/-- C6: the batch is all-or-nothing: if processing any row raises (for
example a non-numeric tenure, monthly or total cell), the whole batch returns
the diagnostic error artifact and no annotated output exists at all. -/
theorem C6_batch_abort (model : Model) (encs : Encoders) (df : List Row)
    (h : ∃ r ∈ df, ∃ e, process_row model encs r = Except.error e) :
    (∃ msg, process_batch_file model encs df = Except.error msg) ∧
    ∀ out, process_batch_file model encs df ≠ Except.ok out := by
  obtain ⟨e, he⟩ := run_rows_error_of_mem model encs df h
  have hb : process_batch_file model encs df = Except.error ("Error processing file: " ++ e) := by
    unfold process_batch_file
    rw [he]
  exact ⟨⟨"Error processing file: " ++ e, hb⟩, fun out hc => by rw [hb] at hc; cases hc⟩

/-- Witness for C6: a 3-row batch whose middle row has the non-numeric tenure
"abc" aborts entirely. -/
theorem C6_batch_abort_witness :
    (∃ msg, process_batch_file dummy_model []
      [[("tenure", Cell.num 5)], [("tenure", Cell.text "abc")], []] = Except.error msg) ∧
    ∀ out, process_batch_file dummy_model []
      [[("tenure", Cell.num 5)], [("tenure", Cell.text "abc")], []] ≠ Except.ok out :=
  C6_batch_abort dummy_model [] [[("tenure", Cell.num 5)], [("tenure", Cell.text "abc")], []]
    ⟨[("tenure", Cell.text "abc")],
      List.mem_cons_of_mem _ (List.mem_cons_self _ _),
      "could not convert string to float: abc", by rfl⟩

/-- C7: every missing column of a batch row falls back to its fixed default,
and the senior-citizen flag is "Yes" exactly when the raw SeniorCitizen cell
is the number 1 (so "No" for any other value and for a missing column). -/
theorem C7_batch_defaults (row : Row) :
    ((∀ kv ∈ row, kv.1 ≠ "gender") → (batch_row_inputs row).gender = "Male") ∧
    ((∀ kv ∈ row, kv.1 ≠ "Partner") → (batch_row_inputs row).partner = "No") ∧
    ((∀ kv ∈ row, kv.1 ≠ "Dependents") → (batch_row_inputs row).dependents = "No") ∧
    ((∀ kv ∈ row, kv.1 ≠ "tenure") → (batch_row_inputs row).tenure = Cell.num 0) ∧
    ((∀ kv ∈ row, kv.1 ≠ "PhoneService") → (batch_row_inputs row).phone = "No") ∧
    ((∀ kv ∈ row, kv.1 ≠ "InternetService") → (batch_row_inputs row).internet = "No") ∧
    ((∀ kv ∈ row, kv.1 ≠ "MonthlyCharges") → (batch_row_inputs row).monthly = Cell.num 0) ∧
    ((∀ kv ∈ row, kv.1 ≠ "TotalCharges") → (batch_row_inputs row).total = Cell.num 0) ∧
    ((batch_row_inputs row).senior = "Yes" ↔
      rowGet row "SeniorCitizen" (Cell.num 0) = Cell.num 1) := by
  refine ⟨?_, ?_, ?_, ?_, ?_, ?_, ?_, ?_, ?_⟩
  · intro h
    show strCell (rowGet row "gender" (Cell.text "Male")) = "Male"
    rw [rowGet_default row "gender" _ h]
    rfl
  · intro h
    show strCell (rowGet row "Partner" (Cell.text "No")) = "No"
    rw [rowGet_default row "Partner" _ h]
    rfl
  · intro h
    show strCell (rowGet row "Dependents" (Cell.text "No")) = "No"
    rw [rowGet_default row "Dependents" _ h]
    rfl
  · intro h
    show rowGet row "tenure" (Cell.num 0) = Cell.num 0
    exact rowGet_default row "tenure" _ h
  · intro h
    show strCell (rowGet row "PhoneService" (Cell.text "No")) = "No"
    rw [rowGet_default row "PhoneService" _ h]
    rfl
  · intro h
    show strCell (rowGet row "InternetService" (Cell.text "No")) = "No"
    rw [rowGet_default row "InternetService" _ h]
    rfl
  · intro h
    show rowGet row "MonthlyCharges" (Cell.num 0) = Cell.num 0
    exact rowGet_default row "MonthlyCharges" _ h
  · intro h
    show rowGet row "TotalCharges" (Cell.num 0) = Cell.num 0
    exact rowGet_default row "TotalCharges" _ h
  · show (if cellEqOne (rowGet row "SeniorCitizen" (Cell.num 0)) then "Yes" else "No") = "Yes" ↔
      rowGet row "SeniorCitizen" (Cell.num 0) = Cell.num 1
    cases hc : rowGet row "SeniorCitizen" (Cell.num 0) with
    | num q =>
      by_cases hq : q = 1 <;> simp [cellEqOne, hq]
    | text s =>
      simp [cellEqOne]

/-- Witness for C7: a row with only an unrelated column gets every default
and a non-senior flag. -/
theorem C7_batch_defaults_witness :
    (batch_row_inputs [("foo", Cell.num 7)]).gender = "Male" ∧
    (batch_row_inputs [("foo", Cell.num 7)]).tenure = Cell.num 0 ∧
    ((batch_row_inputs [("foo", Cell.num 7)]).senior = "Yes" ↔
      rowGet [("foo", Cell.num 7)] "SeniorCitizen" (Cell.num 0) = Cell.num 1) := by
  have h := C7_batch_defaults [("foo", Cell.num 7)]
  exact ⟨h.1 (by decide), h.2.2.2.1 (by decide), h.2.2.2.2.2.2.2.2⟩

/-- Rowwise description of the annotated output table: each output row keeps
every column other than Prediction and Churn_Probability unchanged and holds
the row's label and rounded probability under those two columns. -/
lemma annotate_rel (model : Model) (encs : Encoders) (df : List Row)
    (res : List (String × ℚ))
    (hf : List.Forall₂ (fun r x => process_row model encs r = Except.ok x) df res) :
    List.Forall₂ (fun r outr =>
      (∀ col d, col ≠ "Prediction" → col ≠ "Churn_Probability" →
        rowGet outr col d = rowGet r col d) ∧
      ∃ lab p, process_row model encs r = Except.ok (lab, p) ∧
        (lab = "Churn" ∨ lab = "No Churn") ∧ (∃ q, p = round4 q) ∧
        rowGet outr "Prediction" (Cell.num 0) = Cell.text lab ∧
        rowGet outr "Churn_Probability" (Cell.num 0) = Cell.num p) df (annotate df res) := by
  induction hf with
  | nil => exact List.Forall₂.nil
  | cons hx hrest ih =>
    rename_i r x rs xs
    show List.Forall₂ _ (r :: rs) (annotate_row r x.1 x.2 :: annotate rs xs)
    refine List.Forall₂.cons ⟨?_, ?_⟩ ih
    · intro col d h1 h2
      unfold annotate_row
      rw [rowGet_setColumn_ne _ _ _ _ _ h2, rowGet_setColumn_ne _ _ _ _ _ h1]
    · have hx2 : process_row model encs r = Except.ok (x.1, x.2) := hx
      obtain ⟨hlab, hq⟩ := process_row_ok_shape model encs r x.1 x.2 hx2
      refine ⟨x.1, x.2, hx2, hlab, hq, ?_, ?_⟩
      · unfold annotate_row
        rw [rowGet_setColumn_ne _ _ _ _ _ (by decide), rowGet_setColumn_self]
      · unfold annotate_row
        rw [rowGet_setColumn_self]

/-- C8 as frozen is false on the code: when the uploaded table already has a
Prediction column, its original values are overwritten in place rather than
preserved, so the output is not the input plus two appended columns. -/
theorem C8_counterexample :
    process_batch_file dummy_model []
      [[("Prediction", Cell.text "X"), ("tenure", Cell.num 5)]] =
      Except.ok [[("Prediction", Cell.text "No Churn"), ("tenure", Cell.num 5),
        ("Churn_Probability", Cell.num (1/4))]] ∧
    [("Prediction", Cell.text "No Churn"), ("tenure", Cell.num 5),
        ("Churn_Probability", Cell.num (1/4))] ≠
      [("Prediction", Cell.text "X"), ("tenure", Cell.num 5)] ++
        [("Prediction", Cell.text "No Churn"), ("Churn_Probability", Cell.num (1/4))] :=
  ⟨by with_unfolding_all rfl, by decide⟩

/-- C8 amended: for every successfully processed batch the output table has
one row per input row; each output row assigns the Prediction column the
row's label (one of "Churn" / "No Churn") and the Churn_Probability column
the row's probability rounded to 4 digits (appending them when absent,
overwriting them in place when the input already has such a column), and
every other original column and value is preserved unchanged. -/
theorem C8_amended_append (model : Model) (encs : Encoders) (df out : List Row)
    (h : process_batch_file model encs df = Except.ok out) :
    List.Forall₂ (fun r outr =>
      (∀ col d, col ≠ "Prediction" → col ≠ "Churn_Probability" →
        rowGet outr col d = rowGet r col d) ∧
      ∃ lab p, process_row model encs r = Except.ok (lab, p) ∧
        (lab = "Churn" ∨ lab = "No Churn") ∧ (∃ q, p = round4 q) ∧
        rowGet outr "Prediction" (Cell.num 0) = Cell.text lab ∧
        rowGet outr "Churn_Probability" (Cell.num 0) = Cell.num p) df out := by
  unfold process_batch_file at h
  cases hr : run_rows model encs df with
  | error e =>
    rw [hr] at h
    cases h
  | ok res =>
    rw [hr] at h
    cases h
    exact annotate_rel model encs df res (run_rows_ok_forall model encs df res hr)

/-- Witness for C8: a concrete one-row batch is annotated with the two
columns appended after the preserved original column. -/
theorem C8_amended_witness :
    List.Forall₂ (fun r outr =>
      (∀ col d, col ≠ "Prediction" → col ≠ "Churn_Probability" →
        rowGet outr col d = rowGet r col d) ∧
      ∃ lab p, process_row dummy_model [] r = Except.ok (lab, p) ∧
        (lab = "Churn" ∨ lab = "No Churn") ∧ (∃ q, p = round4 q) ∧
        rowGet outr "Prediction" (Cell.num 0) = Cell.text lab ∧
        rowGet outr "Churn_Probability" (Cell.num 0) = Cell.num p)
      [[("tenure", Cell.num 5)]]
      [[("tenure", Cell.num 5), ("Prediction", Cell.text "No Churn"),
        ("Churn_Probability", Cell.num (1/4))]] :=
  C8_amended_append dummy_model [] [[("tenure", Cell.num 5)]]
    [[("tenure", Cell.num 5), ("Prediction", Cell.text "No Churn"),
      ("Churn_Probability", Cell.num (1/4))]] (by with_unfolding_all rfl)
